import Mathlib

/-!
# hms API layer (`src/hms/api.go`)

A shallow embedding of the request router of the `hms` URL shortener:
`appHandler.ServeHTTP`, `APIHandler`, `handleAdd`, `handleResolve` and the
route table `apiRoutes`.

The Go code is effectful.  Every function of the embedding takes the state it
acts on and returns the state it leaves:

* the `http.ResponseWriter` (header map, the status line and header block once
  sent, the body written so far);
* the datastore, an arbitrary type `σ` on which the collaborators act;
* the list of collaborator calls made so far (`calls`), which is how
  "without issuing the query" is stated;
* the operator log written through `log.Errorf`.

Code of the repository that is not in `api.go` (`Link`, `createShortenedURL`,
`getMatchingLink`), the App Engine datastore query and `json.Marshal` are
fields of an environment `Env`; every theorem holds for every environment.
-/

set_option linter.dupNamespace false

namespace hms

/-! ## Data model -/

/-- A non-nil Go error value; `text` is what its `Error()` method returns. -/
structure GoError where
  text : String
deriving DecidableEq, Repr

/-- The Go interface type `error`: `none` is `nil`. -/
abbrev error := Option GoError

/-- The struct `APIKey` (api.go 16-20); `Created` is a `time.Time`, kept as a number. -/
structure APIKey where
  APIKey : String
  OwnerEmail : String
  Created : Int
deriving DecidableEq, Repr

/-- The struct `appError` (api.go 22-26). -/
structure appError where
  Error : error
  Message : String
  Code : Int
deriving DecidableEq, Repr

/-- The struct `AddSuccessResponse` (api.go 28-31). -/
structure AddSuccessResponse where
  Success : Bool
  ResultURL : String
deriving DecidableEq, Repr

/-- The struct `ResolveResponse` (api.go 33-36); `Link` is declared in another file. -/
structure ResolveResponse (Link : Type) where
  Success : Bool
  Result : Link
deriving DecidableEq, Repr

/-! ## net/http: requests, headers, response writer -/

/-- The part of `url.URL` the code reads. -/
structure URL where
  Path : String
deriving DecidableEq, Repr

/-- The part of `http.Request` the code reads.  `Form` is the parsed form
(body parameters before query parameters), each key with its values. -/
structure Request where
  Method : String
  Host : String
  URL : URL
  Form : List (String × List String)
  Body : String
deriving DecidableEq, Repr

/-- `r.FormValue(key)`: the first value for `key`, or the empty string. -/
def Request.FormValue (r : Request) (key : String) : String :=
  match r.Form.lookup key with
  | some (v :: _) => v
  | _ => ""

/-- A header map `http.Header`, for the keys in canonical form the code uses. -/
structure Header where
  entries : List (String × String)
deriving DecidableEq, Repr

/-- `h.Del(key)`. -/
def Header.Del (h : Header) (key : String) : Header :=
  ⟨h.entries.filter (fun kv => kv.1 != key)⟩

/-- `h.Set(key, value)`: replaces any value stored under `key`. -/
def Header.Set (h : Header) (key value : String) : Header :=
  ⟨(key, value) :: (h.Del key).entries⟩

/-- `h.Get(key)`: the value under `key`, or the empty string. -/
def Header.Get (h : Header) (key : String) : String :=
  (h.entries.lookup key).getD ""

/-- An `http.ResponseWriter`: the header map the handler edits, the status and
header block that went on the wire (`none` until `WriteHeader`), and the body. -/
structure ResponseWriter where
  header : Header
  sent : Option (Int × Header)
  body : String
deriving DecidableEq, Repr

/-- `w.WriteHeader(code)`: sends the status line and the header map as it is
now; a second call changes nothing. -/
def ResponseWriter.WriteHeader (w : ResponseWriter) (code : Int) : ResponseWriter :=
  match w.sent with
  | some _ => w
  | none => { w with sent := some (code, w.header) }

/-- `w.Write(b)`: sends status 200 first if no header was sent, then appends `b`. -/
def ResponseWriter.Write (w : ResponseWriter) (b : String) : ResponseWriter :=
  let w1 := w.WriteHeader 200
  { w1 with body := w1.body ++ b }

/-- `http.Error(w, msg, code)` of net/http: drops Content-Length, sets
Content-Type to plain text and X-Content-Type-Options to nosniff, sends the
header with `code`, and prints `msg` with `fmt.Fprintln`, that is followed by
a line feed. -/
def httpError (w : ResponseWriter) (msg : String) (code : Int) : ResponseWriter :=
  let h := ((w.header.Del "Content-Length").Set "Content-Type" "text/plain; charset=utf-8").Set
    "X-Content-Type-Options" "nosniff"
  ({ w with header := h }.WriteHeader code).Write (msg ++ "\n")

/-- The response a client receives once the handler has returned: the server
sends status 200 with the current header map if the handler sent none. -/
structure Response where
  status : Int
  header : Header
  body : String
deriving DecidableEq, Repr

/-- What net/http does when the handler returns (`finishRequest`). -/
def ResponseWriter.finish (w : ResponseWriter) : Response :=
  match w.sent with
  | some (code, h) => ⟨code, h, w.body⟩
  | none => ⟨200, w.header, w.body⟩

/-! ## Collaborators and state -/

/-- A call that leaves `api.go`. -/
inductive Call where
  | GetAllAPIKey (apiKey : String)
  | createShortenedURL (r : Request)
  | getMatchingLink (reqPath : String)
deriving DecidableEq, Repr

/-- The state a request handler acts on. -/
structure State (σ : Type) where
  w : ResponseWriter
  store : σ
  calls : List Call
  log : List String
deriving DecidableEq, Repr

/-- What `api.go` uses and does not define.  `GetAll k` is the query
`datastore.NewQuery("APIKey").Filter("APIKey =", k).GetAll(c, &results)` with
the slice it fills and its error; `zeroLink` is `Link{}`; the three `Marshal`
fields are the bytes `json.Marshal` returns for each of the three types the
code encodes (its error is dropped by the code). -/
structure Env (σ Link : Type) where
  GetAll : String → σ → (List APIKey × error) × σ
  createShortenedURL : Request → σ → (String × error) × σ
  getMatchingLink : String → σ → (List Link × error) × σ
  zeroLink : Link
  MarshalAppError : appError → String
  MarshalAdd : AddSuccessResponse → String
  MarshalResolve : ResolveResponse Link → String

variable {σ Link : Type}

/-- The APIKey query, recorded in `calls`. -/
def Env.doGetAll (env : Env σ Link) (apiKey : String) (s : State σ) :
    (List APIKey × error) × State σ :=
  let out := env.GetAll apiKey s.store
  (out.1, { s with store := out.2, calls := s.calls ++ [Call.GetAllAPIKey apiKey] })

/-- A call of `createShortenedURL(r)`, recorded in `calls`. -/
def Env.doCreateShortenedURL (env : Env σ Link) (r : Request) (s : State σ) :
    (String × error) × State σ :=
  let out := env.createShortenedURL r s.store
  (out.1, { s with store := out.2, calls := s.calls ++ [Call.createShortenedURL r] })

/-- A call of `getMatchingLink(reqPath, c)`, recorded in `calls`. -/
def Env.doGetMatchingLink (env : Env σ Link) (reqPath : String) (s : State σ) :
    (List Link × error) × State σ :=
  let out := env.getMatchingLink reqPath s.store
  (out.1, { s with store := out.2, calls := s.calls ++ [Call.getMatchingLink reqPath] })

/-- The verb `%v` of package fmt on an `error`. -/
def fmtV (e : error) : String :=
  match e with
  | none => "<nil>"
  | some x => x.text

/-- `log.Errorf(c, "error recorded: %v; message: %v", cause, message)`. -/
def logErrorf (s : State σ) (cause : error) (message : String) : State σ :=
  { s with log := s.log ++ ["error recorded: " ++ fmtV cause ++ "; message: " ++ message] }

/-! ## The handlers -/

/-- The function type `appHandler` (api.go 38). -/
abbrev appHandler (σ : Type) := State σ → Request → Option appError × State σ

/-- The function type `apiHandler` (api.go 39). -/
abbrev apiHandler (σ : Type) := State σ → Request → APIKey → Option appError × State σ

/-- `handleAdd` (api.go 64-80).  `fmt.Sprintf` with `%s` verbs on strings is
concatenation. -/
def handleAdd (env : Env σ Link) : apiHandler σ := fun s r _apiKey =>
  if r.Method ≠ "POST" then
    (some ⟨none, "Invalid request method: " ++ r.Method, 401⟩, s)
  else
    let out := env.doCreateShortenedURL r s
    let resURL := out.1.1
    match out.1.2 with
    | some err => (some ⟨some err, err.text, 400⟩, out.2)
    | none =>
      let absResURL := "http://" ++ r.Host ++ "/" ++ resURL
      let resp : AddSuccessResponse := ⟨true, absResURL⟩
      let respJSON := env.MarshalAdd resp
      (none, { out.2 with w := out.2.w.Write respJSON })

/-- `handleResolve` (api.go 82-104). -/
def handleResolve (env : Env σ Link) : apiHandler σ := fun s r _apiKey =>
  if r.Method ≠ "GET" then
    (some ⟨none, "Invalid request method: " ++ r.Method, 401⟩, s)
  else
    let reqPath := r.FormValue "path"
    if reqPath = "" then
      (some ⟨none, "The \x60path\x60 parameter is required. ", 401⟩, s)
    else
      let out := env.doGetMatchingLink reqPath s
      let linkResults := out.1.1
      let err := out.1.2
      let resp : ResolveResponse Link :=
        if h : err ≠ none ∨ linkResults.length ≠ 1 then
          ⟨false, env.zeroLink⟩
        else
          ⟨true, linkResults.get ⟨0, by rw [not_or, not_not, not_not] at h; omega⟩⟩
      let respJSON := env.MarshalResolve resp
      (none, { out.2 with w := out.2.w.Write respJSON })

/-- The package variable `apiRoutes` (api.go 41-44). -/
def apiRoutes (env : Env σ Link) : List (String × apiHandler σ) :=
  [("/api/add", handleAdd env), ("/api/resolve", handleResolve env)]

/-- `APIHandler` (api.go 106-128); `routes` is the value of the package
variable `apiRoutes` the function reads. -/
def APIHandler (env : Env σ Link) (routes : List (String × apiHandler σ)) : appHandler σ :=
  fun s r =>
  let apiKey := r.FormValue "apiKey"
  if apiKey = "" then
    (some ⟨none, "Invalid API Key", 401⟩, s)
  else
    let out := env.doGetAll apiKey s
    let results := out.1.1
    let err := out.1.2
    if err ≠ none then
      (some ⟨err, "Error validating API key", 500⟩, out.2)
    else if h : results.length = 0 then
      (some ⟨none, "Invalid API key.", 401⟩, out.2)
    else
      let apiKeyStruct := results.get ⟨0, by omega⟩
      match routes.lookup r.URL.Path with
      | none => (some ⟨none, "No API handler for " ++ r.URL.Path, 404⟩, out.2)
      | some handler => handler out.2 r apiKeyStruct

/-- `appHandler.ServeHTTP` (api.go 46-58).  `appengine.NewContext` has no
effect on the state. -/
def ServeHTTP (env : Env σ Link) (fn : appHandler σ) (s : State σ) (r : Request) : State σ :=
  let s0 := { s with w := { s.w with header := s.w.header.Set "Content-Type" "application/json" } }
  match fn s0 r with
  | (none, s1) => s1
  | (some e, s1) =>
    if e.Code = 500 then
      let s2 := logErrorf s1 e.Error e.Message
      { s2 with w := httpError s2.w e.Message e.Code }
    else
      let asJson := env.MarshalAppError e
      { s1 with w := httpError s1.w asJson e.Code }

/-- The response the specification gives for an outcome `(links, err)` of the
link query: success with the link when there is no error and exactly one
link, failure with the empty link otherwise.  Written from the specification,
to be compared with what `handleResolve` encodes. -/
def specResolveResponse (zero : Link) (links : List Link) (err : error) : ResolveResponse Link :=
  match err, links with
  | none, [l] => ⟨true, l⟩
  | _, _ => ⟨false, zero⟩

/-- A writer nothing has been written to. -/
def ResponseWriter.fresh : ResponseWriter := ⟨⟨[]⟩, none, ""⟩

/-- The state in which the server hands a request to `ServeHTTP`. -/
def State.init (store : σ) : State σ := ⟨ResponseWriter.fresh, store, [], []⟩

/-! ## A concrete environment

The definitions below stand for no code of the repository: they are one
environment, small enough to evaluate, in which the handlers are run on
concrete requests. -/

namespace Sample

/-- The JSON text of a string that needs no escaping. -/
def quote (s : String) : String := "\"" ++ s ++ "\""

/-- The JSON text of an `error` held in a struct field: `null` for nil, an
empty object for an error value without exported fields. -/
def errorJSON (e : error) : String :=
  match e with
  | none => "null"
  | some _ => "\x7b\x7d"

/-- The JSON text of an `appError`. -/
def appErrorJSON (e : appError) : String :=
  "\x7b\"Error\":" ++ errorJSON e.Error ++ ",\"Message\":" ++ quote e.Message ++
    ",\"Code\":" ++ toString e.Code ++ "\x7d"

/-- The JSON text of an `AddSuccessResponse`. -/
def addJSON (a : AddSuccessResponse) : String :=
  "\x7b\"Success\":" ++ toString a.Success ++ ",\"ResultURL\":" ++ quote a.ResultURL ++ "\x7d"

/-- The JSON text of a `ResolveResponse` whose links are plain strings. -/
def resolveJSON (a : ResolveResponse String) : String :=
  "\x7b\"Success\":" ++ toString a.Success ++ ",\"Result\":" ++ quote a.Result ++ "\x7d"

/-- The one registered key of the sample store. -/
def key : APIKey := ⟨"k1", "owner@example.com", 0⟩

/-- An environment over a store that counts the links created.  The key
`k1` is registered, the key `down` makes the key query fail; the path `a`
has one link, `b` has two, `x` makes the link query fail; a request without
`url` cannot be shortened. -/
def env : Env Nat String where
  GetAll := fun k n =>
    if k = "k1" then (([key], none), n)
    else if k = "down" then (([], some ⟨"datastore: unavailable"⟩), n)
    else (([], none), n)
  createShortenedURL := fun r n =>
    if r.FormValue "url" = "" then (("", some ⟨"missing url"⟩), n)
    else (("l" ++ toString n, none), n + 1)
  getMatchingLink := fun p n =>
    if p = "a" then ((["http://example.com/a"], none), n)
    else if p = "b" then ((["http://example.com/b1", "http://example.com/b2"], none), n)
    else if p = "x" then (([], some ⟨"datastore: unavailable"⟩), n)
    else (([], none), n)
  zeroLink := ""
  MarshalAppError := appErrorJSON
  MarshalAdd := addJSON
  MarshalResolve := resolveJSON

/-- A request with the given method, path and form. -/
def req (method path : String) (form : List (String × List String)) : Request :=
  ⟨method, "hms.example", ⟨path⟩, form, ""⟩

/-- The router as it is mounted: `appHandler(APIHandler)` over the route table. -/
def serve (r : Request) : State Nat :=
  ServeHTTP env (APIHandler env (apiRoutes env)) (State.init 0) r

end Sample

end hms

/-! ## Theorems -/

namespace hms

variable {σ Link : Type}

/-! ### Response writer -/

theorem finish_Write (w : ResponseWriter) (b : String) (h : w.sent = none) :
    (w.Write b).finish = ⟨200, w.header, w.body ++ b⟩ := by
  simp [ResponseWriter.Write, ResponseWriter.WriteHeader, ResponseWriter.finish, h]

theorem body_Write (w : ResponseWriter) (b : String) : (w.Write b).body = w.body ++ b := by
  unfold ResponseWriter.Write ResponseWriter.WriteHeader
  cases w.sent <;> rfl

theorem finish_httpError (w : ResponseWriter) (msg : String) (code : Int) (h : w.sent = none) :
    (httpError w msg code).finish =
      ⟨code,
        ((w.header.Del "Content-Length").Set "Content-Type" "text/plain; charset=utf-8").Set
          "X-Content-Type-Options" "nosniff",
        w.body ++ (msg ++ "\n")⟩ := by
  simp [httpError, ResponseWriter.Write, ResponseWriter.WriteHeader, ResponseWriter.finish, h]

theorem get_contentType_httpError (h : Header) :
    (((h.Del "Content-Length").Set "Content-Type" "text/plain; charset=utf-8").Set
      "X-Content-Type-Options" "nosniff").Get "Content-Type" = "text/plain; charset=utf-8" := by
  simp [Header.Get, Header.Set, Header.Del, List.lookup, List.filter]

/-- What `ServeHTTP` does with a handler that fails with a code other than 500. -/
theorem ServeHTTP_of_error (env : Env σ Link) (fn : appHandler σ) (s s1 : State σ) (r : Request)
    (e : appError)
    (hfn : fn { s with w := { s.w with header := s.w.header.Set "Content-Type" "application/json" } } r
      = (some e, s1))
    (hc : e.Code ≠ 500) :
    ServeHTTP env fn s r = { s1 with w := httpError s1.w (env.MarshalAppError e) e.Code } := by
  simp [ServeHTTP, hfn, hc]

/-- What `ServeHTTP` does with a handler that fails with code 500. -/
theorem ServeHTTP_of_error500 (env : Env σ Link) (fn : appHandler σ) (s s1 : State σ)
    (r : Request) (e : appError)
    (hfn : fn { s with w := { s.w with header := s.w.header.Set "Content-Type" "application/json" } } r
      = (some e, s1))
    (hc : e.Code = 500) :
    ServeHTTP env fn s r =
      { s1 with
        w := httpError s1.w e.Message e.Code,
        log := s1.log ++ ["error recorded: " ++ fmtV e.Error ++ "; message: " ++ e.Message] } := by
  simp [ServeHTTP, hfn, hc, logErrorf]

/-! ### Resolve -/

/-- C1: on a GET request with a non-empty `path`, whatever `getMatchingLink`
returns, `handleResolve` returns no appError and writes the JSON encoding of
a ResolveResponse that is (true, the link) when the query gave no error and
exactly one link, and (false, `Link{}`) otherwise; the status is 200. -/
theorem handleResolve_get_with_path (env : Env σ Link) (s : State σ) (r : Request)
    (apiKey : APIKey) (links : List Link) (err : error) (st : σ)
    (hm : r.Method = "GET") (hp : r.FormValue "path" ≠ "")
    (hq : env.getMatchingLink (r.FormValue "path") s.store = ((links, err), st)) :
    handleResolve env s r apiKey =
      (none,
        { w := s.w.Write (env.MarshalResolve (specResolveResponse env.zeroLink links err)),
          store := st,
          calls := s.calls ++ [Call.getMatchingLink (r.FormValue "path")],
          log := s.log })
    ∧ (handleResolve env s r apiKey).2.w.body =
        s.w.body ++ env.MarshalResolve (specResolveResponse env.zeroLink links err)
    ∧ (s.w.sent = none → (handleResolve env s r apiKey).2.w.finish.status = 200) := by
  have key : handleResolve env s r apiKey =
      (none,
        { w := s.w.Write (env.MarshalResolve (specResolveResponse env.zeroLink links err)),
          store := st,
          calls := s.calls ++ [Call.getMatchingLink (r.FormValue "path")],
          log := s.log }) := by
    unfold handleResolve
    simp only [hm, hp, Env.doGetMatchingLink, ne_eq, not_true_eq_false, if_false]
    cases err with
    | some e => simp [specResolveResponse, hq]
    | none =>
      match links with
      | [] => simp [specResolveResponse, hq]
      | [l] => simp [specResolveResponse, hq]
      | _ :: _ :: _ => simp [specResolveResponse, hq]
  refine ⟨key, ?_, ?_⟩
  · rw [key, body_Write]
  · intro h
    rw [key, finish_Write _ _ h]

theorem handleResolve_get_with_path_witness :
    (handleResolve Sample.env (State.init 0)
        (Sample.req "GET" "/api/resolve" [("path", ["a"])]) Sample.key).1 = none
    ∧ (handleResolve Sample.env (State.init 0)
        (Sample.req "GET" "/api/resolve" [("path", ["a"])]) Sample.key).2.w.finish =
      ⟨200, ⟨[]⟩, "\x7b\"Success\":true,\"Result\":\"http://example.com/a\"\x7d"⟩
    ∧ (handleResolve Sample.env (State.init 0)
        (Sample.req "GET" "/api/resolve" [("path", ["b"])]) Sample.key).2.w.finish =
      ⟨200, ⟨[]⟩, "\x7b\"Success\":false,\"Result\":\"\"\x7d"⟩ := by
  have ha := handleResolve_get_with_path Sample.env (State.init 0)
    (Sample.req "GET" "/api/resolve" [("path", ["a"])]) Sample.key
    ["http://example.com/a"] none 0 (by decide) (by decide) (by decide)
  have hb := handleResolve_get_with_path Sample.env (State.init 0)
    (Sample.req "GET" "/api/resolve" [("path", ["b"])]) Sample.key
    ["http://example.com/b1", "http://example.com/b2"] none 0 (by decide) (by decide) (by decide)
  refine ⟨?_, ?_, ?_⟩
  · rw [ha.1]
  · rw [ha.1]; decide
  · rw [hb.1]; decide

/-- C9 as the specification states it fails: on a GET request without `path`
the message `handleResolve` returns is not the sentence that ends at the full
stop. -/
theorem handleResolve_missing_path_message_counterexample :
    (handleResolve Sample.env (State.init 0) (Sample.req "GET" "/api/resolve" []) Sample.key).1
      ≠ some ⟨none, "The \x60path\x60 parameter is required.", 401⟩ := by
  decide

/-- C9, amended: on a GET request whose `path` form value is absent or empty,
`handleResolve` returns the appError with code 401, no cause, and the message
that is the sentence followed by one space, and it neither calls
`getMatchingLink` nor writes: the state is the one it was given. -/
theorem handleResolve_missing_path (env : Env σ Link) (s : State σ) (r : Request)
    (apiKey : APIKey) (hm : r.Method = "GET") (hp : r.FormValue "path" = "") :
    handleResolve env s r apiKey =
      (some ⟨none, "The \x60path\x60 parameter is required." ++ " ", 401⟩, s) := by
  unfold handleResolve
  simp only [hm, hp, ne_eq, not_true_eq_false, if_false, if_true]
  rfl

theorem handleResolve_missing_path_witness :
    handleResolve Sample.env (State.init 0) (Sample.req "GET" "/api/resolve" [("path", [])])
        Sample.key =
      (some ⟨none, "The \x60path\x60 parameter is required." ++ " ", 401⟩, State.init 0) :=
  handleResolve_missing_path Sample.env (State.init 0)
    (Sample.req "GET" "/api/resolve" [("path", [])]) Sample.key (by decide) (by decide)

/-! ### Add -/

/-- C2: on a POST request for which `createShortenedURL` returns the short path
`p` and no error, `handleAdd` returns no appError and writes the JSON encoding
of the AddSuccessResponse (true, u) with u = "http://" ++ host ++ "/" ++ p,
which begins with "http://" ++ host ++ "/". -/
theorem handleAdd_post_created (env : Env σ Link) (s : State σ) (r : Request)
    (apiKey : APIKey) (p : String) (st : σ)
    (hm : r.Method = "POST")
    (hc : env.createShortenedURL r s.store = ((p, none), st)) :
    handleAdd env s r apiKey =
      (none,
        { w := s.w.Write (env.MarshalAdd ⟨true, "http://" ++ r.Host ++ "/" ++ p⟩),
          store := st,
          calls := s.calls ++ [Call.createShortenedURL r],
          log := s.log })
    ∧ (handleAdd env s r apiKey).2.w.body =
        s.w.body ++ env.MarshalAdd ⟨true, "http://" ++ r.Host ++ "/" ++ p⟩
    ∧ ("http://" ++ r.Host ++ "/").data <+: ("http://" ++ r.Host ++ "/" ++ p).data := by
  have key : handleAdd env s r apiKey =
      (none,
        { w := s.w.Write (env.MarshalAdd ⟨true, "http://" ++ r.Host ++ "/" ++ p⟩),
          store := st,
          calls := s.calls ++ [Call.createShortenedURL r],
          log := s.log }) := by
    simp [handleAdd, hm, Env.doCreateShortenedURL, hc]
  refine ⟨key, ?_, ?_⟩
  · rw [key, body_Write]
  · rw [String.data_append]
    exact List.prefix_append _ _

theorem handleAdd_post_created_witness :
    (handleAdd Sample.env (State.init 7) (Sample.req "POST" "/api/add" [("url", ["http://go.dev"])])
        Sample.key).1 = none
    ∧ (handleAdd Sample.env (State.init 7) (Sample.req "POST" "/api/add" [("url", ["http://go.dev"])])
        Sample.key).2.w.finish =
      ⟨200, ⟨[]⟩, "\x7b\"Success\":true,\"ResultURL\":\"http://hms.example/l7\"\x7d"⟩ := by
  have h := handleAdd_post_created Sample.env (State.init 7)
    (Sample.req "POST" "/api/add" [("url", ["http://go.dev"])]) Sample.key "l7" 8
    (by decide) (by decide)
  refine ⟨?_, ?_⟩
  · rw [h.1]
  · rw [h.1]; decide

/-- C7: on a POST request for which `createShortenedURL` returns a non-nil
error, whatever the error, `handleAdd` returns the appError made of that error,
its text and the code 400, and writes nothing; served through `ServeHTTP` the
status is 400, not 500. -/
theorem handleAdd_post_failed (env : Env σ Link) (s : State σ) (r : Request)
    (apiKey : APIKey) (p : String) (err : GoError) (st : σ)
    (hm : r.Method = "POST")
    (hc : env.createShortenedURL r s.store = ((p, some err), st)) :
    handleAdd env s r apiKey =
      (some ⟨some err, err.text, 400⟩,
        { w := s.w, store := st, calls := s.calls ++ [Call.createShortenedURL r], log := s.log })
    ∧ (s.w.sent = none →
        (ServeHTTP env (fun s0 r0 => handleAdd env s0 r0 apiKey) s r).w.finish.status = 400) := by
  have key : ∀ s0 : State σ, s0.store = s.store → handleAdd env s0 r apiKey =
      (some ⟨some err, err.text, 400⟩,
        { w := s0.w, store := st, calls := s0.calls ++ [Call.createShortenedURL r],
          log := s0.log }) := by
    intro s0 h0
    simp [handleAdd, hm, Env.doCreateShortenedURL, h0, hc]
  refine ⟨key s rfl, ?_⟩
  intro hs
  have h1 := key
    { s with w := { s.w with header := s.w.header.Set "Content-Type" "application/json" } } rfl
  rw [ServeHTTP_of_error env _ s _ r _ h1 (by simp)]
  simp [httpError, ResponseWriter.Write, ResponseWriter.WriteHeader, ResponseWriter.finish, hs]

theorem handleAdd_post_failed_witness :
    handleAdd Sample.env (State.init 7) (Sample.req "POST" "/api/add" []) Sample.key =
      (some ⟨some ⟨"missing url"⟩, "missing url", 400⟩,
        ⟨ResponseWriter.fresh, 7, [Call.createShortenedURL (Sample.req "POST" "/api/add" [])], []⟩)
    ∧ (ServeHTTP Sample.env (fun s0 r0 => handleAdd Sample.env s0 r0 Sample.key) (State.init 7)
        (Sample.req "POST" "/api/add" [])).w.finish.status = 400 := by
  have h := handleAdd_post_failed Sample.env (State.init 7) (Sample.req "POST" "/api/add" [])
    Sample.key "" ⟨"missing url"⟩ 7 (by decide) (by decide)
  exact ⟨h.1, h.2 rfl⟩

/-! ### Request method -/

/-- C6: `handleAdd` on a request whose method is not POST, and `handleResolve`
on a request whose method is not GET, return the appError with no cause, the
message "Invalid request method: " followed by the method, and code 401,
whatever else the request holds; the state is the one given, so no
collaborator was called and nothing was written. -/
theorem handlers_reject_method (env : Env σ Link) (s : State σ) (ra rr : Request)
    (apiKey : APIKey) (ha : ra.Method ≠ "POST") (hr : rr.Method ≠ "GET") :
    handleAdd env s ra apiKey =
      (some ⟨none, "Invalid request method: " ++ ra.Method, 401⟩, s)
    ∧ handleResolve env s rr apiKey =
      (some ⟨none, "Invalid request method: " ++ rr.Method, 401⟩, s) := by
  constructor
  · simp [handleAdd, ha]
  · simp [handleResolve, hr]

theorem handlers_reject_method_witness :
    handleAdd Sample.env (State.init 0) (Sample.req "GET" "/api/add" [("url", ["http://go.dev"])])
        Sample.key =
      (some ⟨none, "Invalid request method: GET", 401⟩, State.init 0)
    ∧ handleResolve Sample.env (State.init 0) (Sample.req "get" "/api/resolve" []) Sample.key =
      (some ⟨none, "Invalid request method: get", 401⟩, State.init 0) :=
  handlers_reject_method Sample.env (State.init 0)
    (Sample.req "GET" "/api/add" [("url", ["http://go.dev"])])
    (Sample.req "get" "/api/resolve" []) Sample.key (by decide) (by decide)

/-! ### Router: API key -/

/-- Without an `apiKey` the router fails at once, in whatever state it is run. -/
theorem APIHandler_of_no_key (env : Env σ Link) (routes : List (String × apiHandler σ))
    (s : State σ) (r : Request) (hk : r.FormValue "apiKey" = "") :
    APIHandler env routes s r = (some ⟨none, "Invalid API Key", 401⟩, s) := by
  simp [APIHandler, hk]

/-- C3 as the specification states it fails: for a request without `apiKey`
the body sent is not the JSON encoding of the error envelope alone; it is that
encoding and a line feed. -/
theorem ServeHTTP_missing_key_body_counterexample :
    (Sample.serve (Sample.req "GET" "/api/resolve" [("path", ["a"])])).w.finish.body
      ≠ Sample.env.MarshalAppError ⟨none, "Invalid API Key", 401⟩
    ∧ (Sample.serve (Sample.req "GET" "/api/resolve" [("path", ["a"])])).w.finish.body
      = Sample.env.MarshalAppError ⟨none, "Invalid API Key", 401⟩ ++ "\n" := by
  decide

/-- C3, amended: for a request whose `apiKey` form value is absent or empty,
whatever the route table, `APIHandler` returns the appError (nil, "Invalid API
Key", 401) and leaves the state as it was (no APIKey query, no handler run);
`ServeHTTP` then makes no collaborator call, logs nothing, and answers with
status 401 and a body that is the JSON encoding of that appError followed by
one line feed. -/
theorem APIHandler_missing_key (env : Env σ Link) (routes : List (String × apiHandler σ))
    (s : State σ) (r : Request) (hk : r.FormValue "apiKey" = "") (hs : s.w.sent = none) :
    APIHandler env routes s r = (some ⟨none, "Invalid API Key", 401⟩, s)
    ∧ (ServeHTTP env (APIHandler env routes) s r).calls = s.calls
    ∧ (ServeHTTP env (APIHandler env routes) s r).store = s.store
    ∧ (ServeHTTP env (APIHandler env routes) s r).log = s.log
    ∧ (ServeHTTP env (APIHandler env routes) s r).w.finish.status = 401
    ∧ (ServeHTTP env (APIHandler env routes) s r).w.finish.body =
        s.w.body ++ (env.MarshalAppError ⟨none, "Invalid API Key", 401⟩ ++ "\n") := by
  refine ⟨APIHandler_of_no_key env routes s r hk, ?_⟩
  rw [ServeHTTP_of_error env _ s _ r _ (APIHandler_of_no_key env routes _ r hk) (by simp)]
  simp [httpError, ResponseWriter.Write, ResponseWriter.WriteHeader, ResponseWriter.finish, hs]

theorem APIHandler_missing_key_witness :
    APIHandler Sample.env (apiRoutes Sample.env) (State.init 0)
        (Sample.req "POST" "/api/add" [("apiKey", [""]), ("url", ["http://go.dev"])]) =
      (some ⟨none, "Invalid API Key", 401⟩, State.init 0)
    ∧ (Sample.serve
        (Sample.req "POST" "/api/add" [("apiKey", [""]), ("url", ["http://go.dev"])])).calls = []
    ∧ (Sample.serve
        (Sample.req "POST" "/api/add" [("apiKey", [""]), ("url", ["http://go.dev"])])).w.finish.status
        = 401
    ∧ (Sample.serve
        (Sample.req "POST" "/api/add" [("apiKey", [""]), ("url", ["http://go.dev"])])).w.finish.body
        = "\x7b\"Error\":null,\"Message\":\"Invalid API Key\",\"Code\":401\x7d\n" := by
  have h := APIHandler_missing_key Sample.env (apiRoutes Sample.env) (State.init 0)
    (Sample.req "POST" "/api/add" [("apiKey", [""]), ("url", ["http://go.dev"])])
    (by decide) (by decide)
  refine ⟨h.1, h.2.1, h.2.2.2.2.1, ?_⟩
  exact h.2.2.2.2.2.trans (by decide)

/-- C4: for a request with a non-empty `apiKey` whose APIKey query succeeds,
whatever the path, the method and the route table: with zero records
`APIHandler` returns the appError (nil, "Invalid API key.", 401) having made the
query and nothing else; with one or more records and a handler registered for
the path, `APIHandler` is that handler run on the first record. -/
theorem APIHandler_key_query (env : Env σ Link) (routes : List (String × apiHandler σ))
    (s : State σ) (r : Request) (results : List APIKey) (st : σ)
    (hk : r.FormValue "apiKey" ≠ "")
    (hq : env.GetAll (r.FormValue "apiKey") s.store = ((results, none), st)) :
    (results = [] →
      APIHandler env routes s r =
        (some ⟨none, "Invalid API key.", 401⟩,
          { w := s.w, store := st,
            calls := s.calls ++ [Call.GetAllAPIKey (r.FormValue "apiKey")], log := s.log }))
    ∧ (∀ (first : APIKey) (rest : List APIKey) (handler : apiHandler σ),
        results = first :: rest → routes.lookup r.URL.Path = some handler →
        APIHandler env routes s r =
          handler
            { w := s.w, store := st,
              calls := s.calls ++ [Call.GetAllAPIKey (r.FormValue "apiKey")], log := s.log }
            r first) := by
  constructor
  · intro h0
    subst h0
    simp [APIHandler, hk, Env.doGetAll, hq]
  · intro first rest handler h0 hl
    subst h0
    simp [APIHandler, hk, Env.doGetAll, hq, hl]

theorem APIHandler_key_query_witness :
    APIHandler Sample.env (apiRoutes Sample.env) (State.init 0)
        (Sample.req "DELETE" "/nowhere" [("apiKey", ["k2"])]) =
      (some ⟨none, "Invalid API key.", 401⟩,
        ⟨ResponseWriter.fresh, 0, [Call.GetAllAPIKey "k2"], []⟩)
    ∧ APIHandler Sample.env [("/whoami", fun s0 _ k => (some ⟨none, k.OwnerEmail, 200⟩, s0))]
        (State.init 0) (Sample.req "GET" "/whoami" [("apiKey", ["k1"])]) =
      (some ⟨none, "owner@example.com", 200⟩,
        ⟨ResponseWriter.fresh, 0, [Call.GetAllAPIKey "k1"], []⟩) := by
  have h0 := APIHandler_key_query Sample.env (apiRoutes Sample.env) (State.init 0)
    (Sample.req "DELETE" "/nowhere" [("apiKey", ["k2"])]) [] 0 (by decide) (by decide)
  have h1 := APIHandler_key_query Sample.env
    [("/whoami", fun s0 _ k => (some ⟨none, k.OwnerEmail, 200⟩, s0))] (State.init 0)
    (Sample.req "GET" "/whoami" [("apiKey", ["k1"])]) [Sample.key] 0 (by decide) (by decide)
  exact ⟨h0.1 rfl, h1.2 Sample.key [] _ rfl rfl⟩

/-- C8 as the specification states it fails: when the APIKey query fails the
body sent is not the plain message alone; it is the message and a line feed. -/
theorem ServeHTTP_query_failed_body_counterexample :
    (Sample.serve (Sample.req "GET" "/api/resolve" [("apiKey", ["down"])])).w.finish.body
      ≠ "Error validating API key"
    ∧ (Sample.serve (Sample.req "GET" "/api/resolve" [("apiKey", ["down"])])).w.finish.body
      = "Error validating API key" ++ "\n" := by
  decide

/-- C8, amended: for a request with a non-empty `apiKey` whose APIKey query
fails with an error, whatever the route table, `APIHandler` returns the
appError (that error, "Error validating API key", 500) having made the query and
nothing else; `ServeHTTP` then logs one entry holding the error text and the
message, and answers with status 500 and a body that is the plain message
followed by one line feed, the same for every error and not built by
`json.Marshal`. -/
theorem APIHandler_query_failed (env : Env σ Link) (routes : List (String × apiHandler σ))
    (s : State σ) (r : Request) (results : List APIKey) (err : GoError) (st : σ)
    (hk : r.FormValue "apiKey" ≠ "")
    (hq : env.GetAll (r.FormValue "apiKey") s.store = ((results, some err), st))
    (hs : s.w.sent = none) :
    APIHandler env routes s r =
      (some ⟨some err, "Error validating API key", 500⟩,
        { w := s.w, store := st,
          calls := s.calls ++ [Call.GetAllAPIKey (r.FormValue "apiKey")], log := s.log })
    ∧ (ServeHTTP env (APIHandler env routes) s r).calls =
        s.calls ++ [Call.GetAllAPIKey (r.FormValue "apiKey")]
    ∧ (ServeHTTP env (APIHandler env routes) s r).log =
        s.log ++ ["error recorded: " ++ err.text ++ "; message: " ++ "Error validating API key"]
    ∧ (ServeHTTP env (APIHandler env routes) s r).w.finish.status = 500
    ∧ (ServeHTTP env (APIHandler env routes) s r).w.finish.body =
        s.w.body ++ ("Error validating API key" ++ "\n") := by
  have key : ∀ s0 : State σ, s0.store = s.store → APIHandler env routes s0 r =
      (some ⟨some err, "Error validating API key", 500⟩,
        { w := s0.w, store := st,
          calls := s0.calls ++ [Call.GetAllAPIKey (r.FormValue "apiKey")], log := s0.log }) := by
    intro s0 h0
    simp [APIHandler, hk, Env.doGetAll, h0, hq]
  refine ⟨key s rfl, ?_⟩
  have h1 := key
    { s with w := { s.w with header := s.w.header.Set "Content-Type" "application/json" } } rfl
  rw [ServeHTTP_of_error500 env _ s _ r _ h1 (by simp)]
  simp [httpError, ResponseWriter.Write, ResponseWriter.WriteHeader, ResponseWriter.finish, hs,
    fmtV]

theorem APIHandler_query_failed_witness :
    APIHandler Sample.env (apiRoutes Sample.env) (State.init 0)
        (Sample.req "POST" "/api/add" [("apiKey", ["down"]), ("url", ["http://go.dev"])]) =
      (some ⟨some ⟨"datastore: unavailable"⟩, "Error validating API key", 500⟩,
        ⟨ResponseWriter.fresh, 0, [Call.GetAllAPIKey "down"], []⟩)
    ∧ (Sample.serve
        (Sample.req "POST" "/api/add" [("apiKey", ["down"]), ("url", ["http://go.dev"])])).log =
      ["error recorded: datastore: unavailable; message: Error validating API key"]
    ∧ (Sample.serve
        (Sample.req "POST" "/api/add" [("apiKey", ["down"]), ("url", ["http://go.dev"])])).w.finish.status
        = 500
    ∧ (Sample.serve
        (Sample.req "POST" "/api/add" [("apiKey", ["down"]), ("url", ["http://go.dev"])])).w.finish.body
        = "Error validating API key\n" := by
  have h := APIHandler_query_failed Sample.env (apiRoutes Sample.env) (State.init 0)
    (Sample.req "POST" "/api/add" [("apiKey", ["down"]), ("url", ["http://go.dev"])])
    [] ⟨"datastore: unavailable"⟩ 0 (by decide) (by decide) (by decide)
  refine ⟨h.1, ?_, h.2.2.2.1, ?_⟩
  · exact h.2.2.1.trans (by decide)
  · exact h.2.2.2.2.trans (by decide)

/-! ### Router: route table -/

theorem lookup_apiRoutes_none (env : Env σ Link) (p : String)
    (ha : p ≠ "/api/add") (hr : p ≠ "/api/resolve") : (apiRoutes env).lookup p = none := by
  have h1 : (p == "/api/add") = false := by simpa using ha
  have h2 : (p == "/api/resolve") = false := by simpa using hr
  simp [apiRoutes, List.lookup, h1, h2]

/-- C5: for a request with a non-empty `apiKey` whose APIKey query succeeds
with at least one record: the path is no key of `apiRoutes` exactly when it is
neither "/api/add" nor "/api/resolve", and then `APIHandler` returns the appError
(nil, "No API handler for " ++ path, 404) having made the query and nothing else;
on "/api/add" it returns what `handleAdd` returns, on "/api/resolve" what
`handleResolve` returns, each run after the query on the first record. -/
theorem APIHandler_dispatch (env : Env σ Link) (s : State σ) (r : Request)
    (first : APIKey) (rest : List APIKey) (st : σ)
    (hk : r.FormValue "apiKey" ≠ "")
    (hq : env.GetAll (r.FormValue "apiKey") s.store = ((first :: rest, none), st)) :
    ((apiRoutes env).lookup r.URL.Path = none ↔
      (r.URL.Path ≠ "/api/add" ∧ r.URL.Path ≠ "/api/resolve"))
    ∧ ((apiRoutes env).lookup r.URL.Path = none →
        APIHandler env (apiRoutes env) s r =
          (some ⟨none, "No API handler for " ++ r.URL.Path, 404⟩,
            { w := s.w, store := st,
              calls := s.calls ++ [Call.GetAllAPIKey (r.FormValue "apiKey")], log := s.log }))
    ∧ (r.URL.Path = "/api/add" →
        APIHandler env (apiRoutes env) s r =
          handleAdd env
            { w := s.w, store := st,
              calls := s.calls ++ [Call.GetAllAPIKey (r.FormValue "apiKey")], log := s.log }
            r first)
    ∧ (r.URL.Path = "/api/resolve" →
        APIHandler env (apiRoutes env) s r =
          handleResolve env
            { w := s.w, store := st,
              calls := s.calls ++ [Call.GetAllAPIKey (r.FormValue "apiKey")], log := s.log }
            r first) := by
  refine ⟨?_, ?_, ?_, ?_⟩
  · constructor
    · intro h
      constructor
      · intro hp
        rw [hp] at h
        simp [apiRoutes, List.lookup] at h
      · intro hp
        rw [hp] at h
        have : ("/api/resolve" == "/api/add") = false := by decide
        simp [apiRoutes, List.lookup, this] at h
    · intro h
      exact lookup_apiRoutes_none env _ h.1 h.2
  · intro hl
    simp [APIHandler, hk, Env.doGetAll, hq, hl]
  · intro hp
    have hl : (apiRoutes env).lookup r.URL.Path = some (handleAdd env) := by
      rw [hp]; simp [apiRoutes, List.lookup]
    simp [APIHandler, hk, Env.doGetAll, hq, hl]
  · intro hp
    have hl : (apiRoutes env).lookup r.URL.Path = some (handleResolve env) := by
      have : ("/api/resolve" == "/api/add") = false := by decide
      rw [hp]; simp [apiRoutes, List.lookup, this]
    simp [APIHandler, hk, Env.doGetAll, hq, hl]

theorem APIHandler_dispatch_witness :
    APIHandler Sample.env (apiRoutes Sample.env) (State.init 0)
        (Sample.req "GET" "/api/add/" [("apiKey", ["k1"])]) =
      (some ⟨none, "No API handler for /api/add/", 404⟩,
        ⟨ResponseWriter.fresh, 0, [Call.GetAllAPIKey "k1"], []⟩)
    ∧ APIHandler Sample.env (apiRoutes Sample.env) (State.init 0)
        (Sample.req "GET" "/api/resolve" [("apiKey", ["k1"]), ("path", ["a"])]) =
      handleResolve Sample.env ⟨ResponseWriter.fresh, 0, [Call.GetAllAPIKey "k1"], []⟩
        (Sample.req "GET" "/api/resolve" [("apiKey", ["k1"]), ("path", ["a"])]) Sample.key := by
  have h0 := APIHandler_dispatch Sample.env (State.init 0)
    (Sample.req "GET" "/api/add/" [("apiKey", ["k1"])]) Sample.key [] 0 (by decide) (by decide)
  have h1 := APIHandler_dispatch Sample.env (State.init 0)
    (Sample.req "GET" "/api/resolve" [("apiKey", ["k1"]), ("path", ["a"])]) Sample.key [] 0
    (by decide) (by decide)
  exact ⟨h0.2.1 (h0.1.mpr ⟨by decide, by decide⟩), h1.2.2.2 rfl⟩

/-! ### Content type -/

/-- Whenever the wrapped handler fails without having sent a header, the
Content-Type that goes on the wire is the plain-text one `http.Error` sets. -/
theorem contentType_of_failure (env : Env σ Link) (fn : appHandler σ) (s s1 : State σ)
    (r : Request) (e : appError)
    (hfn : fn { s with w := { s.w with header := s.w.header.Set "Content-Type" "application/json" } } r
      = (some e, s1))
    (hs : s1.w.sent = none) :
    (ServeHTTP env fn s r).w.finish.header.Get "Content-Type" = "text/plain; charset=utf-8" := by
  by_cases hc : e.Code = 500
  · rw [ServeHTTP_of_error500 env fn s s1 r e hfn hc]
    simp only []
    rw [finish_httpError _ _ _ hs]
    exact get_contentType_httpError _
  · rw [ServeHTTP_of_error env fn s s1 r e hfn hc]
    simp only []
    rw [finish_httpError _ _ _ hs]
    exact get_contentType_httpError _

/-- C10 fails on the code: a request without `apiKey` is answered with status
401 and the Content-Type `text/plain; charset=utf-8`, not `application/json`,
while a request that succeeds is answered with `application/json`. -/
theorem ServeHTTP_contentType_of_missing_key :
    (Sample.serve (Sample.req "GET" "/api/resolve" [("path", ["b"])])).w.finish.status = 401
    ∧ (Sample.serve (Sample.req "GET" "/api/resolve" [("path", ["b"])])).w.finish.header.Get
        "Content-Type" = "text/plain; charset=utf-8"
    ∧ (Sample.serve (Sample.req "GET" "/api/resolve" [("path", ["b"])])).w.finish.header.Get
        "Content-Type" ≠ "application/json"
    ∧ (Sample.serve (Sample.req "GET" "/api/resolve"
        [("apiKey", ["k1"]), ("path", ["b"])])).w.finish.header.Get "Content-Type"
        = "application/json" := by
  decide

end hms
